import Mathlib

/-!
Verification development for the File-Zipper repository
(`src/zip-file-maker.py`, Python 3).

The program is a tkinter GUI that builds ZIP archives.  Its compression
engine (`AdvancedCompression`) chooses between store / zlib / bzip2 / lzma
encodings and the GUI (`ZipMakerGUI`) manages the file list, threading
guards and archive creation.

Shallow embedding conventions:
* byte strings are `List Nat` (one `Nat` per byte, values 0..255 in actual
  inputs; none of the properties below depend on an upper bound);
* Python exceptions are modelled with `Except String`: a raised exception
  that a function does not catch shows up as `.error msg`;
* the external compression libraries (`zlib.compress`, `bz2.compress`,
  `lzma.compress`) are parameters of the embedding (a `Compressors`
  structure), since their output bytes are opaque to this program; each is
  `Except`-valued so that a raising library call can be modelled;
* `float` values are Lean `Float`; the program crashes before any float
  comparison is ever evaluated, so no floating-point reasoning occurs.
-/

namespace ZipFileMaker

/-- Message for the `AttributeError` that Python raises when
`probability.bit_length()` is evaluated: `probability = count / total` is a
`float`, and `float` has no `bit_length` method (only `int` does).
The text is a paraphrase of CPython's message. -/
def attrErrMsg : String := "AttributeError: float object has no attribute bit_length"

/-- `probability.bit_length()` from `_calculate_entropy` (line 49).
`probability` is a Python `float`, which has no `bit_length` attribute,
so this call always raises `AttributeError`. -/
def pyFloatBitLength (_p : Float) : Except String Float :=
  .error attrErrMsg

/-- The multiset of values of `collections.Counter(data)` (line 43):
one count per distinct byte of `data`.  (`Counter` yields them in first
insertion order; only the multiset — in fact only nonemptiness — matters
to the program's behaviour, since the loop body raises immediately.) -/
def counterValues (data : List Nat) : List Nat :=
  data.dedup.map (fun b => data.count b)

/-- The `for count in counts.values()` loop of `_calculate_entropy`
(lines 47-49): `probability = count / total;
entropy -= probability * probability.bit_length()`. -/
def entropyLoop (total : Nat) : List Nat → Float → Except String Float
  | [], entropy => .ok entropy
  | count :: rest, entropy =>
    match pyFloatBitLength (Float.ofNat count / Float.ofNat total) with
    | .error e => .error e
    | .ok bl => entropyLoop total rest (entropy - (Float.ofNat count / Float.ofNat total) * bl)

/-- `AdvancedCompression._calculate_entropy` (lines 38-51).
Empty data returns `0`; otherwise the loop over the counter values runs
(and, in fact, raises on its first iteration). -/
def calculate_entropy (data : List Nat) : Except String Float :=
  if data.isEmpty then .ok 0
  else entropyLoop data.length (counterValues data) 0

/-- The `compression_signatures` list of `_is_compressed` (lines 56-63):
ZIP, GZIP, BZIP2, XZ, PNG, JPEG magic bytes. -/
def compressionSignatures : List (List Nat) :=
  [[0x50, 0x4B, 0x03, 0x04],
   [0x1f, 0x8b],
   [0x42, 0x5A, 0x68],
   [0xFD, 0x37, 0x7A, 0x58, 0x5A],
   [0x89, 0x50, 0x4E, 0x47],
   [0xFF, 0xD8, 0xFF]]

/-- `AdvancedCompression._is_compressed` (lines 53-65):
`any(data.startswith(sig) for sig in compression_signatures)`. -/
def is_compressed (data : List Nat) : Bool :=
  compressionSignatures.any (fun sig => sig.isPrefixOf data)

/-- `AdvancedCompression.analyze_data` (lines 19-36).  Entropy of the first
4096 bytes is computed first (line 22); the signature check, the small-file
check and the entropy thresholds follow.  An exception from
`_calculate_entropy` propagates (there is no handler in this method). -/
def analyze_data (data : List Nat) : Except String String :=
  match calculate_entropy (data.take 4096) with
  | .error e => .error e
  | .ok entropy =>
    if is_compressed (data.take 4096) then .ok "store"
    else if data.length < 1024 then .ok "zlib"
    else if entropy > 7.5 then .ok "lzma"
    else if entropy > 6.5 then .ok "bzip2"
    else .ok "zlib"

/-- Code points that Python's `str.split()` (and `str.isspace`) treat as
whitespace: ASCII whitespace and separators plus the Unicode space
characters. -/
def pyIsSpace (c : Nat) : Bool :=
  [9, 10, 11, 12, 13, 28, 29, 30, 31, 32, 0x85, 0xA0, 0x1680,
   0x2000, 0x2001, 0x2002, 0x2003, 0x2004, 0x2005, 0x2006, 0x2007,
   0x2008, 0x2009, 0x200A, 0x2028, 0x2029, 0x202F, 0x205F, 0x3000].contains c

/-- Continuation byte test for UTF-8 (`0x80..0xBF`). -/
def contByte (b : Nat) : Bool :=
  0x80 ≤ b && b ≤ 0xBF

/-- Strict UTF-8 decoding, as performed by `data.decode('utf-8')`
(line 71): code points out, `none` on any invalid sequence
(stray continuation, bad lead byte, overlong form, surrogate, > U+10FFFF),
which models `UnicodeDecodeError`. -/
def decodeUtf8 : List Nat → Option (List Nat)
  | [] => some []
  | b0 :: rest =>
    if b0 < 0x80 then
      (decodeUtf8 rest).map (b0 :: ·)
    else if 0xC2 ≤ b0 && b0 ≤ 0xDF then
      match rest with
      | b1 :: rest1 =>
        if contByte b1 then
          (decodeUtf8 rest1).map (((b0 - 0xC0) * 0x40 + (b1 - 0x80)) :: ·)
        else none
      | [] => none
    else if 0xE0 ≤ b0 && b0 ≤ 0xEF then
      match rest with
      | b1 :: b2 :: rest2 =>
        if (if b0 = 0xE0 then 0xA0 ≤ b1 && b1 ≤ 0xBF
            else if b0 = 0xED then 0x80 ≤ b1 && b1 ≤ 0x9F
            else contByte b1) && contByte b2 then
          (decodeUtf8 rest2).map
            (((b0 - 0xE0) * 0x1000 + (b1 - 0x80) * 0x40 + (b2 - 0x80)) :: ·)
        else none
      | _ => none
    else if 0xF0 ≤ b0 && b0 ≤ 0xF4 then
      match rest with
      | b1 :: b2 :: b3 :: rest3 =>
        if (if b0 = 0xF0 then 0x90 ≤ b1 && b1 ≤ 0xBF
            else if b0 = 0xF4 then 0x80 ≤ b1 && b1 ≤ 0x8F
            else contByte b1) && contByte b2 && contByte b3 then
          (decodeUtf8 rest3).map
            (((b0 - 0xF0) * 0x40000 + (b1 - 0x80) * 0x1000 +
              (b2 - 0x80) * 0x40 + (b3 - 0x80)) :: ·)
        else none
      | _ => none
    else none

/-- UTF-8 encoding of one code point (`str.encode('utf-8')`, line 80). -/
def encodeChar (c : Nat) : List Nat :=
  if c < 0x80 then [c]
  else if c < 0x800 then [0xC0 + c / 0x40, 0x80 + c % 0x40]
  else if c < 0x10000 then
    [0xE0 + c / 0x1000, 0x80 + c / 0x40 % 0x40, 0x80 + c % 0x40]
  else
    [0xF0 + c / 0x40000, 0x80 + c / 0x1000 % 0x40,
     0x80 + c / 0x40 % 0x40, 0x80 + c % 0x40]

/-- UTF-8 encoding of a string of code points. -/
def encodeUtf8 (cs : List Nat) : List Nat :=
  (cs.map encodeChar).flatten

/-- Worker for `pySplit`: accumulates the current token (reversed). -/
def pySplitAux : List Nat → List Nat → List (List Nat)
  | [], acc => if acc = [] then [] else [acc.reverse]
  | c :: rest, acc =>
    if pyIsSpace c then
      if acc = [] then pySplitAux rest [] else acc.reverse :: pySplitAux rest []
    else pySplitAux rest (c :: acc)

/-- Python's `text.split()` (line 74): split on runs of whitespace,
discarding empty tokens. -/
def pySplit (cs : List Nat) : List (List Nat) :=
  pySplitAux cs []

/-- Python's `' '.join(tokens)` (line 74). -/
def joinSpace (tokens : List (List Nat)) : List Nat :=
  (tokens.intersperse [32]).flatten

/-- Alphanumeric test for one code point, on the ASCII range
(`0-9`, `A-Z`, `a-z`).  The theorems below only ever evaluate it on
ASCII text; non-ASCII Unicode categories are not modelled. -/
def pyIsAlnumChar (c : Nat) : Bool :=
  (48 ≤ c && c ≤ 57) || (65 ≤ c && c ≤ 90) || (97 ≤ c && c ≤ 122)

/-- Python's `text.isalnum()` (line 77): true iff the string is nonempty
and every character is alphanumeric. -/
def pyIsAlnum (cs : List Nat) : Bool :=
  !cs.isEmpty && cs.all pyIsAlnumChar

/-- Python's `text.lower()` (line 78), on the ASCII range (the only range
the theorems below evaluate it on: `lower` is reached only when
`isalnum` held). -/
def pyLower (cs : List Nat) : List Nat :=
  cs.map (fun c => if 65 ≤ c && c ≤ 90 then c + 32 else c)

/-- `AdvancedCompression.preprocess_text` (lines 67-82): decode as UTF-8
(returning the input unchanged on `UnicodeDecodeError`), collapse
whitespace runs to single spaces via `' '.join(text.split())`, lowercase
when the whole text is alphanumeric, and re-encode. -/
def preprocess_text (data : List Nat) : List Nat :=
  match decodeUtf8 data with
  | none => data
  | some text0 =>
    encodeUtf8 (
      if pyIsAlnum (joinSpace (pySplit text0)) then pyLower (joinSpace (pySplit text0))
      else joinSpace (pySplit text0))

/-- The external compression primitives (`zlib.compress(data, level)`,
`bz2.compress(data, 9)`, `lzma.compress(data, FORMAT_RAW, LZMA2 preset 9)`).
They are opaque library calls, so the embedding is parametric in them;
`Except`-valued so that a raising call can be modelled. -/
structure Compressors where
  zlibCompress : List Nat → Nat → Except String (List Nat)
  bz2Compress : List Nat → Except String (List Nat)
  lzmaCompress : List Nat → Except String (List Nat)

/-- A concrete instance of the compression primitives used to evaluate
closed statements: each library call returns its input unchanged
(hence never shrinks the data and never raises). -/
def trivialCompressors : Compressors :=
  ⟨fun d _ => .ok d, fun d => .ok d, fun d => .ok d⟩

/-- Lines 90-91 of `compress_data`: the local `data` is rebound to
`preprocess_text(data)` when the method is not `'store'` and the data does
not carry a compressed-format signature. -/
def effectiveData (data : List Nat) (method : String) : List Nat :=
  if (method != "store") && !is_compressed (data.take 4096) then preprocess_text data
  else data

/-- The `for level in [1, 6, 9]` loop of the zlib branch (lines 105-109):
keep the shortest of `best_compressed` (initially `data`, paired with
level 6) and each `zlib.compress(data, level)`.  A raising library call
aborts the loop (the exception travels to the `except` of
`compress_data`). -/
def zlibTryLevels (C : Compressors) (data : List Nat) :
    List Nat → List Nat × Nat → Except String (List Nat × Nat)
  | [], best => .ok best
  | level :: rest, best =>
    match C.zlibCompress data level with
    | .error e => .error e
    | .ok tc =>
      zlibTryLevels C data rest (if tc.length < best.1.length then (tc, level) else best)

/-- Lines 102-111: the zlib branch's best-of-three-levels search, started
from `best_compressed = data`, `best_level = 6`. -/
def zlibBest (C : Compressors) (data : List Nat) : Except String (List Nat × Nat) :=
  zlibTryLevels C data [1, 6, 9] (data, 6)

/-- Lines 125-128 of `compress_data`: `if compressed and
len(compressed) < len(data): return compressed, compression_method;
return data, 'store'`.  `compressed` is truthy iff it is a `bytes` value
(not `None`) and nonempty. -/
def finalCheck (data : List Nat) (compressed : Option (List Nat)) (cm : String) :
    List Nat × String :=
  match compressed with
  | some c => if c ≠ [] ∧ c.length < data.length then (c, cm) else (data, "store")
  | none => (data, "store")

/-- The `try:` block of `compress_data` (lines 96-128), acting on the
(possibly preprocessed) `data`.  `.error` is an exception raised inside
the block by a compression library call. -/
def tryBlock (C : Compressors) (data : List Nat) (method : String) :
    Except String (List Nat × String) :=
  if method = "store" then .ok (data, "store")
  else if method = "zlib" then
    match zlibBest C data with
    | .error e => .error e
    | .ok best => .ok (finalCheck data (some best.1) ("zlib-" ++ toString best.2))
  else if method = "bzip2" then
    match C.bz2Compress data with
    | .error e => .error e
    | .ok c => .ok (finalCheck data (some c) "bzip2")
  else if method = "lzma" then
    match C.lzmaCompress data with
    | .error e => .error e
    | .ok c => .ok (finalCheck data (some c) "lzma")
  else .ok (finalCheck data none "")

/-- `AdvancedCompression.compress_data` (lines 84-132).
The `method == 'auto'` resolution through `analyze_data` (lines 86-87) and
the text preprocessing (lines 89-91) happen BEFORE the `try:` block, so an
exception raised there propagates out of `compress_data`; an exception
inside the `try:` block is caught and `(data, 'store')` is returned, where
`data` is the rebound (possibly preprocessed) value. -/
def compress_data (C : Compressors) (data : List Nat) (method : String) :
    Except String (List Nat × String) :=
  match (if method = "auto" then analyze_data data else .ok method) with
  | .error e => .error e
  | .ok m =>
    match tryBlock C (effectiveData data m) m with
    | .ok r => .ok r
    | .error _ => .ok (effectiveData data m, "store")

/-- `os.path.basename` on POSIX paths: the part after the last slash. -/
def basename (path : String) : String :=
  (path.splitOn "/").getLastD ""

/-- One iteration of the `create_zip` loop (lines 305-328), producing the
archive entry `(arc_name, bytes)` for one selected file (a `(path,
contents)` pair).  With a GUI method other than `'store'` the contents go
through `compress_data` (whose exceptions propagate into `create_zip`'s
handler) and the basename gets a `.<used_method>` suffix when the used
method is not `'store'`; with `'store'` the file is written under its bare
basename with its contents unchanged (`zipf.write`). -/
def processFile (C : Compressors) (method : String) (file : String × List Nat) :
    Except String (String × List Nat) :=
  if method ≠ "store" then
    match compress_data C file.2 method with
    | .error e => .error e
    | .ok (compressed_data, used_method) =>
      .ok (if used_method ≠ "store" then basename file.1 ++ "." ++ used_method
           else basename file.1, compressed_data)
  else .ok (basename file.1, file.2)

/-- File-system operations performed by `create_zip`: opening the archive
for writing, reading a selected file, writing one archive entry. -/
inductive FsOp where
  | openWrite (path : String)
  | readFile (path : String)
  | writeEntry (zipPath : String) (arcName : String)

/-- The `for file_path in self.files_to_zip` loop of `create_zip`
(lines 305-331): first component is the list of archive entries written
(`.error` when an exception aborted the loop — the `except` at line 343
then reports it and the archive is left without the remaining entries);
second component is the trace of file-system operations performed. -/
def createZipLoop (C : Compressors) (method outputPath : String) :
    List (String × List Nat) →
    Except String (List (String × List Nat)) × List FsOp
  | [] => (.ok [], [])
  | f :: rest =>
    match processFile C method f with
    | .error e => (.error e, [.readFile f.1])
    | .ok entry =>
      ((createZipLoop C method outputPath rest).1.map (entry :: ·),
       .readFile f.1 :: .writeEntry outputPath entry.1 ::
         (createZipLoop C method outputPath rest).2)

/-- `ZipMakerGUI.create_zip` (lines 297-350): opens the archive at the
chosen output path (`zipfile.ZipFile(output_path, 'w')`) and processes the
selected files in order.  Result: the entries written (or the exception
that aborted the run), plus the file-system operation trace. -/
def create_zip (C : Compressors) (files : List (String × List Nat))
    (method outputPath : String) :
    Except String (List (String × List Nat)) × List FsOp :=
  ((createZipLoop C method outputPath files).1,
   .openWrite outputPath :: (createZipLoop C method outputPath files).2)

/-- The mutable GUI state that `create_zip_threaded` consults and updates:
`self.files_to_zip` and `self.is_processing`. -/
structure GuiState where
  files_to_zip : List String
  is_processing : Bool

/-- Outcome of one `create_zip_threaded` call: a warning dialog, a
cancelled save dialog (falsy `output_path`), or a started worker thread
targeting `create_zip` with the chosen output path. -/
inductive ThreadOutcome where
  | warned (msg : String)
  | cancelled
  | started (outputPath : String)

/-- `ZipMakerGUI.create_zip_threaded` (lines 272-295).  `output_path` is
the result of `asksaveasfilename` (the empty string when the user
cancels).  Guards in source order: empty selection warns, an in-progress
run warns, a falsy path does nothing; otherwise `is_processing` is set
and the worker thread is started. -/
def create_zip_threaded (s : GuiState) (output_path : String) :
    GuiState × ThreadOutcome :=
  if s.files_to_zip = [] then (s, .warned "No files selected!")
  else if s.is_processing then (s, .warned "Already processing!")
  else if output_path ≠ "" then
    ({ s with is_processing := true }, .started output_path)
  else (s, .cancelled)

/-- `ZipMakerGUI.add_files` (lines 251-265): each path chosen in the
dialog is appended to `files_to_zip` only when not already present
(membership is checked against the list as updated so far). -/
def add_files (files_to_zip : List String) (chosen : List String) : List String :=
  chosen.foldl (fun acc file => if file ∈ acc then acc else acc ++ [file]) files_to_zip

/-- `ZipMakerGUI.clear_files` (lines 267-270): `self.files_to_zip.clear()`. -/
def clear_files (_files_to_zip : List String) : List String :=
  []

/-- Predicate on one file-system operation: writes (archive open, entry
write) target the chosen output path, reads target selected input files. -/
def opOk (outputPath : String) (inputPaths : List String) : FsOp → Bool
  | .openWrite p => p == outputPath
  | .readFile p => inputPaths.contains p
  | .writeEntry z _ => z == outputPath

/-! ### Helper lemmas -/

/-- On any nonempty input, `_calculate_entropy` raises `AttributeError`:
the loop body evaluates `probability.bit_length()` on a `float` in its
first iteration. -/
theorem calculate_entropy_err (l : List Nat) (h : l ≠ []) :
    calculate_entropy l = .error attrErrMsg := by
  obtain ⟨a, t, rfl⟩ := List.exists_cons_of_ne_nil h
  have hd : (a :: t).dedup ≠ [] :=
    List.ne_nil_of_mem (List.mem_dedup.mpr (List.mem_cons_self a t))
  obtain ⟨b, s, hb⟩ := List.exists_cons_of_ne_nil hd
  unfold calculate_entropy
  rw [if_neg (by simp)]
  unfold counterValues
  rw [hb, List.map_cons]
  rfl

/-- A nonempty list has a nonempty `take 4096`. -/
theorem take_4096_ne_nil (data : List Nat) (h : data ≠ []) :
    data.take 4096 ≠ [] := by
  obtain ⟨a, t, rfl⟩ := List.exists_cons_of_ne_nil h
  have hlen : 0 < ((a :: t).take 4096).length := by
    rw [List.length_take]
    simp
  exact List.ne_nil_of_length_pos hlen

/-- `analyze_data` propagates the `AttributeError` of
`_calculate_entropy` on every nonempty input. -/
theorem analyze_data_err (data : List Nat) (h : data ≠ []) :
    analyze_data data = .error attrErrMsg := by
  unfold analyze_data
  rw [calculate_entropy_err (data.take 4096) (take_4096_ne_nil data h)]

/-! ### Claims -/

/-- C1: the claim says `analyze_data` picks one of `'store'`, `'zlib'`,
`'bzip2'`, `'lzma'` by entropy thresholds.  In fact, for every nonempty
input the entropy computation raises `AttributeError`
(`probability.bit_length()` on a `float`), and `analyze_data` propagates
it instead of returning a method. -/
theorem analyze_data_crashes_on_nonempty (data : List Nat) (h : data ≠ []) :
    analyze_data data = .error attrErrMsg :=
  analyze_data_err data h

/-- C1 witness: the crash at the concrete one-byte input `0x00`. -/
theorem analyze_data_crashes_on_nonempty_witness :
    analyze_data [0] = .error attrErrMsg :=
  analyze_data_crashes_on_nonempty [0] (by decide)

/-- C3: the claim says an input starting with one of the six
compressed-format signatures makes `analyze_data` return `'store'`.
In fact the entropy computation at line 22 runs BEFORE the signature
check at line 25 and raises `AttributeError` on any such (necessarily
nonempty) input. -/
theorem analyze_data_signature_crashes (data : List Nat)
    (h : is_compressed (data.take 4096) = true) :
    analyze_data data = .error attrErrMsg := by
  have hne : data ≠ [] := by
    intro hnil
    rw [hnil] at h
    exact absurd h (by decide)
  exact analyze_data_err data hne

/-- C3 witness: the crash at the concrete input `PK\x03\x04`
(the ZIP signature itself). -/
theorem analyze_data_signature_crashes_witness :
    analyze_data [0x50, 0x4B, 0x03, 0x04] = .error attrErrMsg :=
  analyze_data_signature_crashes [0x50, 0x4B, 0x03, 0x04] (by decide)

/-- C2 counterexample: the claim says `compress_data` never lets an
exception propagate, for `'auto'` as well.  At the concrete input
`b'\x00'` with `method='auto'`, the analysis step (which runs before the
`try:` block) raises `AttributeError` and `compress_data` raises. -/
theorem compress_data_auto_raises_cex :
    compress_data trivialCompressors [0] "auto" = .error attrErrMsg :=
  rfl

/-- For a method other than `'auto'`, `compress_data` returns normally:
the `try:` block's value when it does not raise, else the fallback
`(data, 'store')` on the (possibly preprocessed) data. -/
theorem compress_data_not_auto (C : Compressors) (data : List Nat)
    (m : String) (hm : ¬ m = "auto") :
    compress_data C data m =
      .ok (match tryBlock C (effectiveData data m) m with
           | .ok r => r
           | .error _ => (effectiveData data m, "store")) := by
  unfold compress_data
  rw [if_neg hm]
  cases htb : tryBlock C (effectiveData data m) m <;> simp [htb]

/-- C2 amended: for every input and every explicit method argument
(`'store'`, `'zlib'`, `'bzip2'`, `'lzma'`), `compress_data` returns
normally with a (bytes, label) pair — any exception raised by a
compression call inside the `try:` block is caught and the fallback
`(data, 'store')` (on the possibly preprocessed data) is returned.  With
`method='auto'`, however, the analysis step runs before the `try:` block
and its exception propagates: on every nonempty input `compress_data`
raises `AttributeError`. -/
theorem compress_data_explicit_total :
    (∀ (C : Compressors) (data : List Nat) (m : String),
        m ∈ ["store", "zlib", "bzip2", "lzma"] →
        compress_data C data m =
          .ok (match tryBlock C (effectiveData data m) m with
               | .ok r => r
               | .error _ => (effectiveData data m, "store"))) ∧
    (∀ (C : Compressors) (data : List Nat), data ≠ [] →
        compress_data C data "auto" = .error attrErrMsg) := by
  constructor
  · intro C data m hm
    have hm' : ¬ m = "auto" := by
      simp only [List.mem_cons, List.not_mem_nil, or_false] at hm
      rcases hm with rfl | rfl | rfl | rfl <;> decide
    exact compress_data_not_auto C data m hm'
  · intro C data h
    unfold compress_data
    rw [if_pos rfl, analyze_data_err data h]

/-- C2 witness: both halves of the amended claim at concrete inputs —
`b'ab'` under `'bzip2'` (with identity-like compression libraries the
data does not shrink, so the final check yields `(b'ab', 'store')`), and
`b'\x00'` under `'auto'` (raises). -/
theorem compress_data_explicit_total_witness :
    compress_data trivialCompressors [97, 98] "bzip2" = .ok ([97, 98], "store") ∧
    compress_data trivialCompressors [1] "auto" = .error attrErrMsg :=
  ⟨compress_data_explicit_total.1 trivialCompressors [97, 98] "bzip2" (by decide),
   compress_data_explicit_total.2 trivialCompressors [1] (by decide)⟩

/-- When no `zlib.compress` output is shorter than the input, the
best-of-levels loop keeps `best_compressed = data` (level 6), unless a
library call raises. -/
theorem zlibTryLevels_no_gain (C : Compressors) (data : List Nat)
    (h : ∀ level c, C.zlibCompress data level = .ok c → data.length ≤ c.length) :
    ∀ levels : List Nat,
      zlibTryLevels C data levels (data, 6) = .ok (data, 6) ∨
      ∃ e, zlibTryLevels C data levels (data, 6) = .error e := by
  intro levels
  induction levels with
  | nil => exact Or.inl rfl
  | cons l ls ih =>
    cases hc : C.zlibCompress data l with
    | error e =>
      refine Or.inr ⟨e, ?_⟩
      simp [zlibTryLevels, hc]
    | ok tc =>
      have hnl : ¬ tc.length < data.length := Nat.not_lt.mpr (h l tc hc)
      rcases ih with h1 | ⟨e, h1⟩
      · exact Or.inl (by simp [zlibTryLevels, hc, hnl, h1])
      · exact Or.inr ⟨e, by simp [zlibTryLevels, hc, hnl, h1]⟩

/-- C4: the claim (and the code's own comment, line 125: `Return original
data if compression didn't help`) says that a `'store'`-labelled result
carries exactly the original input bytes.  In fact lines 90-91 rebind
`data` to its preprocessed form, so when compression does not shrink the
data (or raises), the `'store'`-labelled result carries the PREPROCESSED
bytes: for the input `b'a  b'` under `'zlib'`, whenever the zlib library
cannot shrink the 3-byte preprocessed text (true of the real zlib, whose
smallest output is 9 bytes), the result is `(b'a b', 'store')` — not the
original `b'a  b'`. -/
theorem compress_data_store_label_not_original (C : Compressors)
    (h : ∀ level c, C.zlibCompress [97, 32, 98] level = .ok c → 3 ≤ c.length) :
    compress_data C [97, 32, 32, 98] "zlib" = .ok ([97, 32, 98], "store") ∧
    ([97, 32, 98] : List Nat) ≠ [97, 32, 32, 98] := by
  refine ⟨?_, by decide⟩
  rw [compress_data_not_auto C [97, 32, 32, 98] "zlib" (by decide)]
  have he : effectiveData [97, 32, 32, 98] "zlib" = [97, 32, 98] := rfl
  rw [he]
  have ht : tryBlock C [97, 32, 98] "zlib" =
      (match zlibBest C [97, 32, 98] with
       | .error e => .error e
       | .ok best =>
         .ok (finalCheck [97, 32, 98] (some best.1) ("zlib-" ++ toString best.2))) := rfl
  rw [ht]
  have h' : ∀ level c, C.zlibCompress [97, 32, 98] level = .ok c →
      ([97, 32, 98] : List Nat).length ≤ c.length := by
    intro level c hc
    simpa using h level c hc
  rcases zlibTryLevels_no_gain C [97, 32, 98] h' [1, 6, 9] with hk | ⟨e, hk⟩
  · rw [zlibBest, hk]
    rfl
  · rw [zlibBest, hk]

/-- C4 witness: with identity-like compression libraries (which never
shrink anything) the concrete input `b'a  b'` under `'zlib'` indeed comes
back as `(b'a b', 'store')`, which differs from the input. -/
theorem compress_data_store_label_not_original_witness :
    compress_data trivialCompressors [97, 32, 32, 98] "zlib" =
      .ok ([97, 32, 98], "store") ∧
    ([97, 32, 98] : List Nat) ≠ [97, 32, 32, 98] :=
  compress_data_store_label_not_original trivialCompressors
    (by intro level c hc
        simp only [trivialCompressors] at hc
        cases hc
        decide)

/-- C7: `compress_data` with `method='store'` is the identity on its
input and skips text preprocessing: it returns exactly
`(input, 'store')`, for every input and every behaviour of the
compression libraries. -/
theorem compress_data_store_identity (C : Compressors) (data : List Nat) :
    compress_data C data "store" = .ok (data, "store") :=
  rfl

/-- C5: the claim says `create_zip` always writes one entry per selected
file.  In fact, with the GUI method `'auto'` and any file with nonempty
contents, `compress_data` raises `AttributeError` (the entropy bug), the
loop aborts into `create_zip`'s exception handler, and the archive is
closed without an entry for that file: concretely, for a single selected
file `f.txt` containing the byte `0x00`, the run errors after only opening
the archive and reading the file — no entry is written. -/
theorem create_zip_auto_aborts (C : Compressors) (outputPath : String) :
    (create_zip C [("f.txt", [0])] "auto" outputPath).1 = .error attrErrMsg ∧
    (create_zip C [("f.txt", [0])] "auto" outputPath).2 =
      [.openWrite outputPath, .readFile "f.txt"] :=
  ⟨rfl, rfl⟩

/-- C6: the automatic heuristic only samples the data: `analyze_data`
evaluates nothing of its input except the first 4096 bytes (entropy
sample and signature check) and whether the total length is below 1024,
so two inputs agreeing on those produce the same outcome. -/
theorem analyze_data_depends_only_on_sample (d1 d2 : List Nat)
    (h1 : d1.take 4096 = d2.take 4096)
    (h2 : d1.length < 1024 ↔ d2.length < 1024) :
    analyze_data d1 = analyze_data d2 := by
  unfold analyze_data
  rw [h1]
  cases calculate_entropy (d2.take 4096) with
  | error e => rfl
  | ok entropy => exact if_congr Iff.rfl rfl (if_congr h2 rfl rfl)

/-- C6 witness: two 4097-byte inputs differing only in their last byte
get the same decision. -/
theorem analyze_data_depends_only_on_sample_witness :
    analyze_data (List.replicate 4096 0 ++ [1]) =
      analyze_data (List.replicate 4096 0 ++ [2]) :=
  analyze_data_depends_only_on_sample _ _
    (by
      have ht1 : (List.replicate 4096 0 ++ [1]).take 4096 = List.replicate 4096 0 :=
        List.take_left' (by rw [List.length_replicate])
      have ht2 : (List.replicate 4096 0 ++ [2]).take 4096 = List.replicate 4096 0 :=
        List.take_left' (by rw [List.length_replicate])
      rw [ht1, ht2])
    (by
      rw [List.length_append, List.length_append, List.length_replicate]
      decide)

/-- C8: `create_zip_threaded` starts the archiving work only when the
selection is nonempty, no run is in progress, and an output path was
chosen; an empty selection warns `No files selected!` without changing
state, and an in-progress run warns `Already processing!` without
changing state. -/
theorem create_zip_threaded_guards (s : GuiState) (d : String) :
    (s.files_to_zip = [] →
      create_zip_threaded s d = (s, .warned "No files selected!")) ∧
    (s.files_to_zip ≠ [] → s.is_processing = true →
      create_zip_threaded s d = (s, .warned "Already processing!")) ∧
    (s.files_to_zip ≠ [] → s.is_processing = false → d ≠ "" →
      create_zip_threaded s d = ({ s with is_processing := true }, .started d)) ∧
    (∀ p, (create_zip_threaded s d).2 = .started p →
      s.files_to_zip ≠ [] ∧ s.is_processing = false ∧ d ≠ "" ∧ p = d ∧
      (create_zip_threaded s d).1 = { s with is_processing := true }) := by
  refine ⟨?_, ?_, ?_, ?_⟩
  · intro h
    simp [create_zip_threaded, h]
  · intro h hp
    simp [create_zip_threaded, h, hp]
  · intro h hp hd
    simp [create_zip_threaded, h, hp, hd]
  · intro p hp
    by_cases h1 : s.files_to_zip = []
    · simp [create_zip_threaded, h1] at hp
    · by_cases h2 : s.is_processing = true
      · simp [create_zip_threaded, h1, h2] at hp
      · by_cases h3 : d = ""
        · simp [create_zip_threaded, h1, h2, h3] at hp
        · have hpd : p = d := by
            simp [create_zip_threaded, h1, h2, h3] at hp
            exact hp.symm
          exact ⟨h1, by simpa using h2, h3, hpd,
            by simp [create_zip_threaded, h1, h2, h3]⟩

/-- C8 witness: with one selected file, no run in progress and a chosen
path, the thread starts and `is_processing` is set. -/
theorem create_zip_threaded_guards_witness :
    create_zip_threaded ⟨["a"], false⟩ "out.zip" =
      (⟨["a"], true⟩, .started "out.zip") :=
  (create_zip_threaded_guards ⟨["a"], false⟩ "out.zip").2.2.1
    (by decide) rfl (by decide)

/-- C9: the selected-file list never contains duplicates: `add_files`
appends a chosen path only when not already present (so it preserves
`Nodup`, even when the dialog returns duplicate paths), and `clear_files`
leaves the empty — trivially duplicate-free — list.  No other GUI
operation writes `files_to_zip`. -/
theorem files_to_zip_nodup_invariant :
    (∀ cur chosen : List String, cur.Nodup → (add_files cur chosen).Nodup) ∧
    (∀ cur : List String, (clear_files cur).Nodup) := by
  constructor
  · intro cur chosen
    induction chosen generalizing cur with
    | nil => exact fun h => h
    | cons c cs ih =>
      intro h
      have hstep : (if c ∈ cur then cur else cur ++ [c]).Nodup := by
        by_cases hc : c ∈ cur
        · simpa [hc] using h
        · rw [if_neg hc]
          simp [List.nodup_append, h, hc]
      have heq : add_files cur (c :: cs) =
          add_files (if c ∈ cur then cur else cur ++ [c]) cs := by
        rw [add_files, add_files, List.foldl_cons]
      rw [heq]
      exact ih _ hstep
  · intro cur
    exact List.nodup_nil

/-- C9 witness: adding `a` (already present) and `b` to the list `[a]`
keeps it duplicate-free. -/
theorem files_to_zip_nodup_invariant_witness :
    (add_files ["a"] ["a", "b"]).Nodup :=
  files_to_zip_nodup_invariant.1 ["a"] ["a", "b"] (by decide)

/-- Every operation in the trace of the `create_zip` loop is a read of a
selected file or an entry write to the archive, for any superset of the
selected paths. -/
theorem createZipLoop_ops_ok (C : Compressors) (method outputPath : String) :
    ∀ (files : List (String × List Nat)) (ps : List String),
      (∀ f ∈ files, f.1 ∈ ps) →
      ((createZipLoop C method outputPath files).2).all (opOk outputPath ps) = true := by
  intro files
  induction files with
  | nil => exact fun ps _ => rfl
  | cons f fs ih =>
    intro ps hps
    have hf : f.1 ∈ ps := hps f (List.mem_cons_self f fs)
    have hfs : ∀ g ∈ fs, g.1 ∈ ps := fun g hg => hps g (List.mem_cons_of_mem f hg)
    cases hpf : processFile C method f with
    | error e => simp [createZipLoop, hpf, opOk, List.elem_iff, hf]
    | ok entry => simp [createZipLoop, hpf, opOk, List.elem_iff, hf, ih ps hfs]

/-- C10: the only file-system write `create_zip` performs is to the
chosen output path (opening the archive and writing entries there); the
selected input files are only ever read.  Nothing else in the program
touches the file system, and no state survives the run. -/
theorem create_zip_writes_only_output (C : Compressors)
    (files : List (String × List Nat)) (method outputPath : String) :
    ((create_zip C files method outputPath).2).all
      (opOk outputPath (files.map Prod.fst)) = true := by
  have hsub : ∀ f ∈ files, f.1 ∈ files.map Prod.fst :=
    fun f hf => List.mem_map_of_mem Prod.fst hf
  have hloop := createZipLoop_ops_ok C method outputPath files (files.map Prod.fst) hsub
  simp [create_zip, opOk, hloop]

end ZipFileMaker
